import Mathlib

/-!
Shallow embedding of the offline medical report analyzer core
(`app.py`): the reference-range table, the range classifier
`categorize_results`, and the risk aggregator `create_summary`.

Numeric values are modelled as rationals; Python exceptions raised
during classification are modelled by `Except String`.
-/

namespace MedReport

/-- The closed status vocabulary produced by `categorize_results`. -/
inductive Status where
  | normal
  | abnormal_low
  | abnormal_high
  | borderline
  | borderline_low
  | very_abnormal_high
  | not_numeric
  | no_reference
deriving DecidableEq, Repr

/-- The exact status strings used by the Python code. -/
def statusStr : Status → String
  | .normal => "normal"
  | .abnormal_low => "abnormal_low"
  | .abnormal_high => "abnormal_high"
  | .borderline => "borderline"
  | .borderline_low => "borderline_low"
  | .very_abnormal_high => "very_abnormal_high"
  | .not_numeric => "not_numeric"
  | .no_reference => "no_reference"

/-- Python `str.lower()` (ASCII, which covers the `[A-Za-z]+` capture
of the sex pattern), written structurally so it evaluates. -/
def pyLower (s : String) : String :=
  String.mk (s.toList.map Char.toLower)

/-- Python `str.upper()` (ASCII), written structurally so it evaluates. -/
def pyUpper (s : String) : String :=
  String.mk (s.toList.map Char.toUpper)

instance {ε α : Type _} [DecidableEq ε] [DecidableEq α] : DecidableEq (Except ε α) := fun a b =>
  match a, b with
  | .error x, .error y =>
    if h : x = y then .isTrue (by rw [h]) else .isFalse (by simp [h])
  | .error _, .ok _ => .isFalse (by simp)
  | .ok _, .error _ => .isFalse (by simp)
  | .ok x, .ok y =>
    if h : x = y then .isTrue (by rw [h]) else .isFalse (by simp [h])

/-- An extracted value: either a parsed number or the trimmed text
fragment kept when `float(...)` fails (`extract_test_results`). -/
inductive Value where
  | num (q : ℚ)
  | text (s : String)
deriving DecidableEq, Repr

/-- A sex-bounded entry of `REFERENCE_RANGES`.  Both the `male` and the
`female` key are present in every such dict of the source; `none`
models a key that is mapped to Python `None` (PSA's female entry). -/
structure SexRange where
  male : Option (ℚ × ℚ)
  female : Option (ℚ × ℚ)
  unit : String
  low_concern : String
  high_concern : String
deriving DecidableEq, Repr

/-- The LDL entry of `REFERENCE_RANGES` (named tier pairs). -/
structure LDLRange where
  normal : ℚ × ℚ
  borderline : ℚ × ℚ
  high : ℚ × ℚ
  very_high : ℚ × ℚ
  unit : String
  low_concern : String
  high_concern : String
deriving DecidableEq, Repr

/-- The HBA1C entry of `REFERENCE_RANGES`. -/
structure HBA1CRange where
  normal : ℚ × ℚ
  prediabetes : ℚ × ℚ
  diabetes : ℚ × ℚ
  unit : String
  low_concern : String
  high_concern : String
deriving DecidableEq, Repr

/-- The VITAMIN_D3 entry of `REFERENCE_RANGES`. -/
structure VitD3Range where
  deficient : ℚ × ℚ
  insufficient : ℚ × ℚ
  normal : ℚ × ℚ
  excess : ℚ × ℚ
  unit : String
  low_concern : String
  high_concern : String
deriving DecidableEq, Repr

/-- The VITAMIN_B12 entry of `REFERENCE_RANGES`. -/
structure VitB12Range where
  deficient : ℚ × ℚ
  normal : ℚ × ℚ
  excess : ℚ × ℚ
  unit : String
  low_concern : String
  high_concern : String
deriving DecidableEq, Repr

/-- One entry of the `REFERENCE_RANGES` table.  The source dispatches on
the test name (`if test == "LDL": ...`); the table assigns the special
shape to exactly the four specially-handled names, so the variant tag
coincides with that name dispatch. -/
inductive RefRule where
  | sexB (r : SexRange)
  | ldl (r : LDLRange)
  | hba1c (r : HBA1CRange)
  | vitD3 (r : VitD3Range)
  | vitB12 (r : VitB12Range)
deriving DecidableEq, Repr

/-- `REFERENCE_RANGES` from `app.py`, entry by entry. -/
def REFERENCE_RANGES : String → Option RefRule
  | "HAEMOGLOBIN" => some (.sexB ⟨some (13, mkRat 165 10), some (12, mkRat 155 10), "gm%", "Anemia possible", "Polycythemia possible"⟩)
  | "RBC" => some (.sexB ⟨some (mkRat 42 10, mkRat 54 10), some (mkRat 36 10, 5), "mill/c.mm.", "Low RBC count", "Elevated RBC count"⟩)
  | "PCV" => some (.sexB ⟨some (38, 42), some (36, 40), "%", "Low hematocrit", "Elevated hematocrit"⟩)
  | "MCV" => some (.sexB ⟨some (78, 100), some (78, 100), "fl", "Microcytic anemia possible", "Macrocytic anemia possible"⟩)
  | "MCH" => some (.sexB ⟨some (27, 31), some (27, 31), "pg", "Hypochromic anemia possible", "Hyperchromic anemia possible"⟩)
  | "MCHC" => some (.sexB ⟨some (32, 36), some (32, 36), "%", "Decreased hemoglobin concentration", "Increased hemoglobin concentration"⟩)
  | "WBC" => some (.sexB ⟨some (4500, 10000), some (4500, 10000), "/c.mm.", "Leukopenia - impaired immune response", "Leukocytosis - infection or inflammation possible"⟩)
  | "NEUTROPHILS" => some (.sexB ⟨some (40, 75), some (40, 75), "%", "Neutropenia", "Neutrophilia - bacterial infection possible"⟩)
  | "EOSINOPHILS" => some (.sexB ⟨some (0, 6), some (0, 6), "%", "", "Eosinophilia - allergy or parasitic infection possible"⟩)
  | "BASOPHILS" => some (.sexB ⟨some (0, 1), some (0, 1), "%", "", "Basophilia - inflammatory or allergic reaction possible"⟩)
  | "LYMPHOCYTES" => some (.sexB ⟨some (20, 45), some (20, 45), "%", "Lymphopenia", "Lymphocytosis - viral infection possible"⟩)
  | "MONOCYTES" => some (.sexB ⟨some (2, 10), some (2, 10), "%", "", "Monocytosis - chronic inflammation possible"⟩)
  | "PLATELETS" => some (.sexB ⟨some (140000, 450000), some (140000, 450000), "/c.mm.", "Thrombocytopenia - bleeding risk", "Thrombocytosis - clotting risk"⟩)
  | "CHOLESTEROL_TOTAL" => some (.sexB ⟨some (70, 200), some (70, 200), "mg/dl", "", "Hypercholesterolemia - increased cardiovascular risk"⟩)
  | "TRIGLYCERIDES" => some (.sexB ⟨some (40, 150), some (40, 150), "mg/dl", "", "Hypertriglyceridemia - increased cardiovascular risk"⟩)
  | "HDL" => some (.sexB ⟨some (35, 120), some (35, 120), "mg/dl", "Low HDL - increased cardiovascular risk", ""⟩)
  | "LDL" => some (.ldl ⟨(0, 100), (101, 130), (131, 170), (171, 999), "mg/dl", "", "Elevated LDL - increased cardiovascular risk"⟩)
  | "VLDL" => some (.sexB ⟨some (5, 35), some (5, 35), "mg/dl", "", "Elevated VLDL - increased cardiovascular risk"⟩)
  | "CHO_HDL_RATIO" => some (.sexB ⟨some (3, 5), some (3, 5), "", "", "Elevated ratio - increased cardiovascular risk"⟩)
  | "LDL_HDL_RATIO" => some (.sexB ⟨some (mkRat 25 10, mkRat 35 10), some (mkRat 25 10, mkRat 35 10), "", "", "Elevated ratio - increased cardiovascular risk"⟩)
  | "CREATININE" => some (.sexB ⟨some (mkRat 7 10, mkRat 13 10), some (mkRat 6 10, mkRat 11 10), "mg/dl", "", "Elevated creatinine - possible kidney dysfunction"⟩)
  | "ALKALINE_PHOSPHATE" => some (.sexB ⟨some (15, 112), some (15, 112), "IU/L", "", "Elevated ALP - possible liver or bone disorder"⟩)
  | "SGPT" => some (.sexB ⟨some (0, 45), some (0, 45), "IU/L", "", "Elevated SGPT - possible liver damage"⟩)
  | "TSH" => some (.sexB ⟨some (mkRat 39 100, mkRat 611 100), some (mkRat 39 100, mkRat 611 100), "uIU/ml", "Low TSH - possible hyperthyroidism", "Elevated TSH - possible hypothyroidism"⟩)
  | "PSA" => some (.sexB ⟨some (0, 4), none, "ng/ml", "", "Elevated PSA - prostate abnormality possible, including cancer"⟩)
  | "VITAMIN_B12" => some (.vitB12 ⟨(0, 200), (200, 900), (900, 9999), "pg/ml", "B12 deficiency - neurological issues possible", ""⟩)
  | "VITAMIN_D3" => some (.vitD3 ⟨(0, 20), (20, 30), (30, 80), (80, 9999), "ng/mL", "Vitamin D deficiency - bone health risk", "Vitamin D excess - hypercalcemia risk"⟩)
  | "HBA1C" => some (.hba1c ⟨(0, mkRat 57 10), (mkRat 57 10, mkRat 65 10), (mkRat 65 10, 20), "%", "", "Elevated HbA1c - diabetes or prediabetes"⟩)
  | _ => none

/-- A classified observation: the `{"value": ..., "status": ...,
"concern": ...}` dict built by `categorize_results`. -/
structure CatEntry where
  value : Value
  status : Status
  concern : String
deriving DecidableEq, Repr

/-- Classification of a single observation, mirroring the body of the
`for` loop of `categorize_results`.  `Except.error` models a Python
exception escaping the classifier:
* in the four specially-named branches a textual value is compared
  against a number (`TypeError`);
* in a sex-bounded branch, `sex in ref_range` is key membership in the
  dict, whose keys are `male`, `female`, `unit`, `low_concern` and
  `high_concern`; unpacking `ref_range[sex]` then raises when the entry
  is `None` (PSA with female sex) or a string (a metadata key). -/
def categorize_one (test : String) (value : Value) (sex : String) : Except String CatEntry :=
  match REFERENCE_RANGES test with
  | none => .ok ⟨value, .no_reference, ""⟩
  | some ref =>
    match ref with
    | .ldl r =>
      match value with
      | .text _ => .error "TypeError: str-number comparison"
      | .num v =>
        if v ≤ r.normal.2 then .ok ⟨value, .normal, ""⟩
        else if v ≤ r.borderline.2 then .ok ⟨value, .borderline, r.high_concern⟩
        else if v ≤ r.high.2 then .ok ⟨value, .abnormal_high, r.high_concern⟩
        else .ok ⟨value, .very_abnormal_high, r.high_concern⟩
    | .hba1c r =>
      match value with
      | .text _ => .error "TypeError: str-number comparison"
      | .num v =>
        if v < r.normal.2 then .ok ⟨value, .normal, ""⟩
        else if v < r.prediabetes.2 then .ok ⟨value, .borderline, "Prediabetes"⟩
        else .ok ⟨value, .abnormal_high, "Diabetes mellitus"⟩
    | .vitD3 r =>
      match value with
      | .text _ => .error "TypeError: str-number comparison"
      | .num v =>
        if v < r.deficient.2 then .ok ⟨value, .abnormal_low, "Severe Vitamin D deficiency"⟩
        else if v < r.insufficient.2 then .ok ⟨value, .borderline_low, "Vitamin D insufficiency"⟩
        else if v ≤ r.normal.2 then .ok ⟨value, .normal, ""⟩
        else .ok ⟨value, .abnormal_high, r.high_concern⟩
    | .vitB12 r =>
      match value with
      | .text _ => .error "TypeError: str-number comparison"
      | .num v =>
        if v < r.deficient.2 then .ok ⟨value, .abnormal_low, r.low_concern⟩
        else if v ≤ r.normal.2 then .ok ⟨value, .normal, ""⟩
        else .ok ⟨value, .abnormal_high, "Elevated B12 levels"⟩
    | .sexB r =>
      match value with
      | .num v =>
        if sex = "male" then
          match r.male with
          | some b =>
            if v < b.1 then .ok ⟨value, .abnormal_low, r.low_concern⟩
            else if v > b.2 then .ok ⟨value, .abnormal_high, r.high_concern⟩
            else .ok ⟨value, .normal, ""⟩
          | none => .error "TypeError: cannot unpack non-iterable NoneType"
        else if sex = "female" then
          match r.female with
          | some b =>
            if v < b.1 then .ok ⟨value, .abnormal_low, r.low_concern⟩
            else if v > b.2 then .ok ⟨value, .abnormal_high, r.high_concern⟩
            else .ok ⟨value, .normal, ""⟩
          | none => .error "TypeError: cannot unpack non-iterable NoneType"
        else if sex = "unit" ∨ sex = "low_concern" ∨ sex = "high_concern" then
          .error "TypeError or ValueError: unpacking a metadata entry"
        else .ok ⟨value, .not_numeric, ""⟩
      | .text _ => .ok ⟨value, .not_numeric, ""⟩

/-- Extracted patient fields (`PATTERNS`), each optional. -/
structure PatientInfo where
  name : Option String := none
  age : Option String := none
  sex : Option String := none
  date : Option String := none
  lab_no : Option String := none
deriving DecidableEq, Repr

/-- `categorize_results`: classify every extracted observation, with
`sex = patient_info.get("sex", "MALE").lower()`.  The first raised
exception aborts the whole loop, as in Python. -/
def categorize_results (test_results : List (String × Value)) (patient_info : PatientInfo) :
    Except String (List (String × CatEntry)) :=
  let sex := pyLower (patient_info.sex.getD "MALE")
  test_results.mapM fun tv => (categorize_one tv.1 tv.2 sex).map fun e => (tv.1, e)

/-- The classified-observation dict, as an association list in
insertion order. -/
abbrev CatMap := List (String × CatEntry)

/-- Python dict indexing `categorized_results[k]` (keys are unique in a
dict; on a list we take the first binding). -/
def lookup (m : CatMap) (k : String) : Option CatEntry :=
  (m.find? fun kv => kv.1 == k).map Prod.snd

/-- `k in categorized_results and categorized_results[k]["status"] == s`. -/
def statusIs (m : CatMap) (k : String) (s : Status) : Bool :=
  match lookup m k with
  | some e => e.status == s
  | none => false

/-- Python `"abnormal" in status or "borderline" in status`
(substring containment, as `in` on strings). -/
def strContains (s pat : String) : Bool :=
  go pat.toList s.toList
where
  go (pat : List Char) : List Char → Bool
    | [] => pat.isPrefixOf []
    | c :: rest => pat.isPrefixOf (c :: rest) || go pat rest

/-- The filter selecting `abnormal_results` in `create_summary`. -/
def isAbnBorder (kv : String × CatEntry) : Bool :=
  strContains (statusStr kv.2.status) "abnormal" || strContains (statusStr kv.2.status) "borderline"

/-- Anemia block: risk factors and recommendations it appends. -/
def anemia_block (m : CatMap) : List String × List String :=
  if statusIs m "HAEMOGLOBIN" .abnormal_low then
    match lookup m "MCV" with
    | some e =>
      if e.status = .abnormal_low then
        (["Microcytic anemia possible - consider iron deficiency"],
         ["Further investigation for iron deficiency anemia recommended"])
      else if e.status = .abnormal_high then
        (["Macrocytic anemia possible - consider B12/folate deficiency"],
         ["Further investigation for vitamin B12 or folate deficiency recommended"])
      else (["Normocytic anemia possible"], [])
    | none => ([], [])
  else ([], [])

/-- Infection/inflammation block. -/
def wbc_block (m : CatMap) : List String × List String :=
  if statusIs m "WBC" .abnormal_high then
    (["Elevated white blood cell count - possible infection or inflammation"],
     ["Monitor for signs of infection or inflammatory conditions"])
  else ([], [])

/-- Cardiovascular-risk block (`has_lipid_concerns`). -/
def lipid_block (m : CatMap) : List String × List String :=
  let has_lipid_concerns :=
    statusIs m "CHOLESTEROL_TOTAL" .abnormal_high
    || (statusIs m "LDL" .abnormal_high || statusIs m "LDL" .very_abnormal_high)
    || statusIs m "HDL" .abnormal_low
    || statusIs m "TRIGLYCERIDES" .abnormal_high
  if has_lipid_concerns then
    (["Dyslipidemia - increased cardiovascular risk"],
     ["Lifestyle modifications recommended; consider dietary changes and exercise"]
       ++ (if statusIs m "LDL" .very_abnormal_high then
             ["Consider consultation with cardiologist for lipid management"]
           else []))
  else ([], [])

/-- Diabetes-risk block. -/
def diabetes_block (m : CatMap) : List String × List String :=
  if statusIs m "HBA1C" .borderline then
    (["Prediabetes"],
     ["Lifestyle modifications recommended; consider dietary changes and exercise",
      "Follow-up HbA1c test in 3-6 months"])
  else if statusIs m "HBA1C" .abnormal_high then
    (["Diabetes mellitus"],
     ["Consultation with endocrinologist recommended",
      "Regular blood glucose monitoring"])
  else ([], [])

/-- Prostate block: gated on `patient_info.get("sex", "").upper() == "MALE"`. -/
def prostate_block (m : CatMap) (info : PatientInfo) : List String × List String :=
  if pyUpper (info.sex.getD "") = "MALE" then
    if statusIs m "PSA" .abnormal_high then
      (["Elevated PSA - prostate abnormality possible"],
       ["Urologist consultation recommended"])
    else ([], [])
  else ([], [])

/-- Vitamin-D block. -/
def vitd_block (m : CatMap) : List String × List String :=
  if statusIs m "VITAMIN_D3" .abnormal_low then
    (["Severe Vitamin D deficiency"], ["Vitamin D supplementation recommended"])
  else if statusIs m "VITAMIN_D3" .borderline_low then
    (["Vitamin D insufficiency"], ["Consider Vitamin D supplementation"])
  else ([], [])

/-- Vitamin-B12 block. -/
def vitb12_block (m : CatMap) : List String × List String :=
  if statusIs m "VITAMIN_B12" .abnormal_low then
    (["Vitamin B12 deficiency"], ["Vitamin B12 supplementation recommended"])
  else ([], [])

/-- Kidney-function block. -/
def kidney_block (m : CatMap) : List String × List String :=
  if statusIs m "CREATININE" .abnormal_high then
    (["Elevated creatinine - possible kidney dysfunction"],
     ["Follow-up kidney function tests recommended"])
  else ([], [])

/-- Liver-function block (`liver_concerns`). -/
def liver_block (m : CatMap) : List String × List String :=
  if statusIs m "SGPT" .abnormal_high || statusIs m "ALKALINE_PHOSPHATE" .abnormal_high then
    (["Possible liver function abnormalities"],
     ["Follow-up liver function tests recommended"])
  else ([], [])

/-- Thyroid-function block. -/
def thyroid_block (m : CatMap) : List String × List String :=
  if statusIs m "TSH" .abnormal_high then
    (["Elevated TSH - possible hypothyroidism"], ["Consider thyroid profile (T3, T4)"])
  else if statusIs m "TSH" .abnormal_low then
    (["Low TSH - possible hyperthyroidism"], ["Consider thyroid profile (T3, T4)"])
  else ([], [])

/-- The `summary` dict produced by `create_summary`. -/
structure Summary where
  patient_info : PatientInfo
  abnormal_count : ℕ
  abnormal_tests : CatMap
  risk_factors : List String
  recommendations : List String
deriving DecidableEq, Repr

/-- The `risk_factors` entries appended by the ten blocks, in the
source's fixed evaluation order (no block reads the accumulating list,
so the sequential appends are the concatenation of the per-block
contributions). -/
def risk_factors_list (m : CatMap) (info : PatientInfo) : List String :=
  (anemia_block m).1 ++ (wbc_block m).1 ++ (lipid_block m).1 ++ (diabetes_block m).1
    ++ (prostate_block m info).1 ++ (vitd_block m).1 ++ (vitb12_block m).1
    ++ (kidney_block m).1 ++ (liver_block m).1 ++ (thyroid_block m).1

/-- The `recommendations` entries appended by the ten blocks, in the
source's fixed evaluation order. -/
def recommendations_list (m : CatMap) (info : PatientInfo) : List String :=
  (anemia_block m).2 ++ (wbc_block m).2 ++ (lipid_block m).2 ++ (diabetes_block m).2
    ++ (prostate_block m info).2 ++ (vitd_block m).2 ++ (vitb12_block m).2
    ++ (kidney_block m).2 ++ (liver_block m).2 ++ (thyroid_block m).2

/-- `create_summary`: the ten blocks append to `risk_factors` /
`recommendations` in the source's fixed order; the sentinel pair is
appended when `risk_factors` ended up empty. -/
def create_summary (m : CatMap) (info : PatientInfo) : Summary :=
  let abnormal_results := m.filter isAbnBorder
  let rf := risk_factors_list m info
  let rc := recommendations_list m info
  { patient_info := info
    abnormal_count := abnormal_results.length
    abnormal_tests := abnormal_results
    risk_factors := if rf.isEmpty then rf ++ ["No significant risk factors identified"] else rf
    recommendations :=
      if rf.isEmpty then
        rc ++ ["Routine follow-up as per age and gender appropriate guidelines"]
      else rc }

lemma create_summary_risk_factors (m : CatMap) (info : PatientInfo) :
    (create_summary m info).risk_factors =
      if (risk_factors_list m info).isEmpty then
        risk_factors_list m info ++ ["No significant risk factors identified"]
      else risk_factors_list m info := rfl

lemma create_summary_recommendations (m : CatMap) (info : PatientInfo) :
    (create_summary m info).recommendations =
      if (risk_factors_list m info).isEmpty then
        recommendations_list m info
          ++ ["Routine follow-up as per age and gender appropriate guidelines"]
      else recommendations_list m info := rfl

lemma mem_risk_factors (m : CatMap) (info : PatientInfo) (x : String)
    (hx : x ∈ risk_factors_list m info) : x ∈ (create_summary m info).risk_factors := by
  rw [create_summary_risk_factors]
  cases h : (risk_factors_list m info).isEmpty with
  | true => rw [List.isEmpty_iff] at h; rw [h] at hx; exact absurd hx (List.not_mem_nil x)
  | false => simpa using hx

lemma mem_recommendations (m : CatMap) (info : PatientInfo) (x : String)
    (hx : x ∈ recommendations_list m info) : x ∈ (create_summary m info).recommendations := by
  rw [create_summary_recommendations]
  cases h : (risk_factors_list m info).isEmpty with
  | true => simp only [if_pos]; exact List.mem_append_left _ hx
  | false => simpa using hx

/-! ### Characterizations of the tiered classifiers -/

lemma LDL_lookup :
    REFERENCE_RANGES "LDL" =
      some (.ldl ⟨(0, 100), (101, 130), (131, 170), (171, 999), "mg/dl", "",
        "Elevated LDL - increased cardiovascular risk"⟩) := rfl

lemma HBA1C_lookup :
    REFERENCE_RANGES "HBA1C" =
      some (.hba1c ⟨(0, mkRat 57 10), (mkRat 57 10, mkRat 65 10), (mkRat 65 10, 20), "%", "",
        "Elevated HbA1c - diabetes or prediabetes"⟩) := rfl

lemma VITAMIN_D3_lookup :
    REFERENCE_RANGES "VITAMIN_D3" =
      some (.vitD3 ⟨(0, 20), (20, 30), (30, 80), (80, 9999), "ng/mL",
        "Vitamin D deficiency - bone health risk", "Vitamin D excess - hypercalcemia risk"⟩) := rfl

lemma VITAMIN_B12_lookup :
    REFERENCE_RANGES "VITAMIN_B12" =
      some (.vitB12 ⟨(0, 200), (200, 900), (900, 9999), "pg/ml",
        "B12 deficiency - neurological issues possible", ""⟩) := rfl

lemma categorize_LDL_num (v : ℚ) (s : String) :
    categorize_one "LDL" (.num v) s =
      if v ≤ 100 then .ok ⟨.num v, .normal, ""⟩
      else if v ≤ 130 then .ok ⟨.num v, .borderline, "Elevated LDL - increased cardiovascular risk"⟩
      else if v ≤ 170 then .ok ⟨.num v, .abnormal_high, "Elevated LDL - increased cardiovascular risk"⟩
      else .ok ⟨.num v, .very_abnormal_high, "Elevated LDL - increased cardiovascular risk"⟩ := by
  unfold categorize_one
  rw [LDL_lookup]

lemma categorize_HBA1C_num (v : ℚ) (s : String) :
    categorize_one "HBA1C" (.num v) s =
      if v < mkRat 57 10 then .ok ⟨.num v, .normal, ""⟩
      else if v < mkRat 65 10 then .ok ⟨.num v, .borderline, "Prediabetes"⟩
      else .ok ⟨.num v, .abnormal_high, "Diabetes mellitus"⟩ := by
  unfold categorize_one
  rw [HBA1C_lookup]

lemma categorize_VITAMIN_D3_num (v : ℚ) (s : String) :
    categorize_one "VITAMIN_D3" (.num v) s =
      if v < 20 then .ok ⟨.num v, .abnormal_low, "Severe Vitamin D deficiency"⟩
      else if v < 30 then .ok ⟨.num v, .borderline_low, "Vitamin D insufficiency"⟩
      else if v ≤ 80 then .ok ⟨.num v, .normal, ""⟩
      else .ok ⟨.num v, .abnormal_high, "Vitamin D excess - hypercalcemia risk"⟩ := by
  unfold categorize_one
  rw [VITAMIN_D3_lookup]

lemma categorize_VITAMIN_B12_num (v : ℚ) (s : String) :
    categorize_one "VITAMIN_B12" (.num v) s =
      if v < 200 then .ok ⟨.num v, .abnormal_low, "B12 deficiency - neurological issues possible"⟩
      else if v ≤ 900 then .ok ⟨.num v, .normal, ""⟩
      else .ok ⟨.num v, .abnormal_high, "Elevated B12 levels"⟩ := by
  unfold categorize_one
  rw [VITAMIN_B12_lookup]

/-- C3: for every numeric LDL value, `v ≤ 100` is `normal` with empty
concern, `100 < v ≤ 130` is `borderline`, `130 < v ≤ 170` is
`abnormal_high`, `v > 170` is `very_abnormal_high`, tiers 2–4 all with
the `high_concern` text; with the boundary instances
100/101/130/131/170/171. -/
theorem ldl_tier_classification (v : ℚ) (s : String) :
    (v ≤ 100 → categorize_one "LDL" (.num v) s = .ok ⟨.num v, .normal, ""⟩)
    ∧ (100 < v → v ≤ 130 →
        categorize_one "LDL" (.num v) s =
          .ok ⟨.num v, .borderline, "Elevated LDL - increased cardiovascular risk"⟩)
    ∧ (130 < v → v ≤ 170 →
        categorize_one "LDL" (.num v) s =
          .ok ⟨.num v, .abnormal_high, "Elevated LDL - increased cardiovascular risk"⟩)
    ∧ (170 < v →
        categorize_one "LDL" (.num v) s =
          .ok ⟨.num v, .very_abnormal_high, "Elevated LDL - increased cardiovascular risk"⟩)
    ∧ categorize_one "LDL" (.num 100) s = .ok ⟨.num 100, .normal, ""⟩
    ∧ categorize_one "LDL" (.num 101) s =
        .ok ⟨.num 101, .borderline, "Elevated LDL - increased cardiovascular risk"⟩
    ∧ categorize_one "LDL" (.num 130) s =
        .ok ⟨.num 130, .borderline, "Elevated LDL - increased cardiovascular risk"⟩
    ∧ categorize_one "LDL" (.num 131) s =
        .ok ⟨.num 131, .abnormal_high, "Elevated LDL - increased cardiovascular risk"⟩
    ∧ categorize_one "LDL" (.num 170) s =
        .ok ⟨.num 170, .abnormal_high, "Elevated LDL - increased cardiovascular risk"⟩
    ∧ categorize_one "LDL" (.num 171) s =
        .ok ⟨.num 171, .very_abnormal_high, "Elevated LDL - increased cardiovascular risk"⟩ := by
  refine ⟨?_, ?_, ?_, ?_, ?_, ?_, ?_, ?_, ?_, ?_⟩
  · intro h; rw [categorize_LDL_num, if_pos h]
  · intro h1 h2; rw [categorize_LDL_num, if_neg (not_le.mpr h1), if_pos h2]
  · intro h1 h2
    rw [categorize_LDL_num, if_neg (by linarith : ¬ v ≤ 100), if_neg (not_le.mpr h1), if_pos h2]
  · intro h1
    rw [categorize_LDL_num, if_neg (by linarith : ¬ v ≤ 100), if_neg (by linarith : ¬ v ≤ 130),
      if_neg (not_le.mpr h1)]
  all_goals rw [categorize_LDL_num]; norm_num

/-- C4: for every numeric HBA1C value, `v < 5.7` is `normal` with empty
concern, `5.7 ≤ v < 6.5` is `borderline` with concern `Prediabetes`,
`v ≥ 6.5` is `abnormal_high` with concern `Diabetes mellitus`; with the
boundary instances 5.6/5.7/6.4/6.5. -/
theorem hba1c_tier_classification (v : ℚ) (s : String) :
    (v < mkRat 57 10 → categorize_one "HBA1C" (.num v) s = .ok ⟨.num v, .normal, ""⟩)
    ∧ (mkRat 57 10 ≤ v → v < mkRat 65 10 →
        categorize_one "HBA1C" (.num v) s = .ok ⟨.num v, .borderline, "Prediabetes"⟩)
    ∧ (mkRat 65 10 ≤ v →
        categorize_one "HBA1C" (.num v) s = .ok ⟨.num v, .abnormal_high, "Diabetes mellitus"⟩)
    ∧ categorize_one "HBA1C" (.num (mkRat 56 10)) s = .ok ⟨.num (mkRat 56 10), .normal, ""⟩
    ∧ categorize_one "HBA1C" (.num (mkRat 57 10)) s =
        .ok ⟨.num (mkRat 57 10), .borderline, "Prediabetes"⟩
    ∧ categorize_one "HBA1C" (.num (mkRat 64 10)) s =
        .ok ⟨.num (mkRat 64 10), .borderline, "Prediabetes"⟩
    ∧ categorize_one "HBA1C" (.num (mkRat 65 10)) s =
        .ok ⟨.num (mkRat 65 10), .abnormal_high, "Diabetes mellitus"⟩ := by
  refine ⟨?_, ?_, ?_, ?_, ?_, ?_, ?_⟩
  · intro h; rw [categorize_HBA1C_num, if_pos h]
  · intro h1 h2; rw [categorize_HBA1C_num, if_neg (not_lt.mpr h1), if_pos h2]
  · intro h1
    have h0 : ¬ v < mkRat 57 10 :=
      not_lt.mpr (le_trans (by decide : (mkRat 57 10 : ℚ) ≤ mkRat 65 10) h1)
    rw [categorize_HBA1C_num, if_neg h0, if_neg (not_lt.mpr h1)]
  · rw [categorize_HBA1C_num, if_pos (by decide : (mkRat 56 10 : ℚ) < mkRat 57 10)]
  · rw [categorize_HBA1C_num, if_neg (by decide : ¬ (mkRat 57 10 : ℚ) < mkRat 57 10),
      if_pos (by decide : (mkRat 57 10 : ℚ) < mkRat 65 10)]
  · rw [categorize_HBA1C_num, if_neg (by decide : ¬ (mkRat 64 10 : ℚ) < mkRat 57 10),
      if_pos (by decide : (mkRat 64 10 : ℚ) < mkRat 65 10)]
  · rw [categorize_HBA1C_num, if_neg (by decide : ¬ (mkRat 65 10 : ℚ) < mkRat 57 10),
      if_neg (by decide : ¬ (mkRat 65 10 : ℚ) < mkRat 65 10)]

/-- C5: for every numeric VITAMIN_D3 value, `v < 20` is `abnormal_low`
(severe-deficiency concern), `20 ≤ v < 30` is `borderline_low`
(insufficiency concern), `30 ≤ v ≤ 80` is `normal`, `v > 80` is
`abnormal_high` (excess concern); for every numeric VITAMIN_B12 value,
`w < 200` is `abnormal_low`, `200 ≤ w ≤ 900` is `normal`, `w > 900` is
`abnormal_high` with concern `Elevated B12 levels`. -/
theorem vitamin_tier_classification (v w : ℚ) (s : String) :
    (v < 20 →
      categorize_one "VITAMIN_D3" (.num v) s =
        .ok ⟨.num v, .abnormal_low, "Severe Vitamin D deficiency"⟩)
    ∧ (20 ≤ v → v < 30 →
        categorize_one "VITAMIN_D3" (.num v) s =
          .ok ⟨.num v, .borderline_low, "Vitamin D insufficiency"⟩)
    ∧ (30 ≤ v → v ≤ 80 →
        categorize_one "VITAMIN_D3" (.num v) s = .ok ⟨.num v, .normal, ""⟩)
    ∧ (80 < v →
        categorize_one "VITAMIN_D3" (.num v) s =
          .ok ⟨.num v, .abnormal_high, "Vitamin D excess - hypercalcemia risk"⟩)
    ∧ (w < 200 →
        categorize_one "VITAMIN_B12" (.num w) s =
          .ok ⟨.num w, .abnormal_low, "B12 deficiency - neurological issues possible"⟩)
    ∧ (200 ≤ w → w ≤ 900 →
        categorize_one "VITAMIN_B12" (.num w) s = .ok ⟨.num w, .normal, ""⟩)
    ∧ (900 < w →
        categorize_one "VITAMIN_B12" (.num w) s =
          .ok ⟨.num w, .abnormal_high, "Elevated B12 levels"⟩) := by
  refine ⟨?_, ?_, ?_, ?_, ?_, ?_, ?_⟩
  · intro h; rw [categorize_VITAMIN_D3_num, if_pos h]
  · intro h1 h2; rw [categorize_VITAMIN_D3_num, if_neg (not_lt.mpr h1), if_pos h2]
  · intro h1 h2
    rw [categorize_VITAMIN_D3_num, if_neg (by linarith : ¬ v < 20),
      if_neg (not_lt.mpr h1), if_pos h2]
  · intro h1
    rw [categorize_VITAMIN_D3_num, if_neg (by linarith : ¬ v < 20),
      if_neg (by linarith : ¬ v < 30), if_neg (not_le.mpr h1)]
  · intro h; rw [categorize_VITAMIN_B12_num, if_pos h]
  · intro h1 h2; rw [categorize_VITAMIN_B12_num, if_neg (not_lt.mpr h1), if_pos h2]
  · intro h1
    rw [categorize_VITAMIN_B12_num, if_neg (by linarith : ¬ w < 200), if_neg (not_le.mpr h1)]

/-- Witness for `ldl_tier_classification`: each guarded branch at a
concrete value. -/
theorem ldl_tier_classification_witness :
    categorize_one "LDL" (.num 50) "male" = .ok ⟨.num 50, .normal, ""⟩
    ∧ categorize_one "LDL" (.num 120) "male" =
        .ok ⟨.num 120, .borderline, "Elevated LDL - increased cardiovascular risk"⟩
    ∧ categorize_one "LDL" (.num 150) "male" =
        .ok ⟨.num 150, .abnormal_high, "Elevated LDL - increased cardiovascular risk"⟩
    ∧ categorize_one "LDL" (.num 180) "male" =
        .ok ⟨.num 180, .very_abnormal_high, "Elevated LDL - increased cardiovascular risk"⟩ :=
  ⟨(ldl_tier_classification 50 "male").1 (by norm_num),
   (ldl_tier_classification 120 "male").2.1 (by norm_num) (by norm_num),
   (ldl_tier_classification 150 "male").2.2.1 (by norm_num) (by norm_num),
   (ldl_tier_classification 180 "male").2.2.2.1 (by norm_num)⟩

/-- Witness for `hba1c_tier_classification`: each guarded branch at a
concrete value. -/
theorem hba1c_tier_classification_witness :
    categorize_one "HBA1C" (.num 5) "male" = .ok ⟨.num 5, .normal, ""⟩
    ∧ categorize_one "HBA1C" (.num 6) "male" = .ok ⟨.num 6, .borderline, "Prediabetes"⟩
    ∧ categorize_one "HBA1C" (.num 7) "male" =
        .ok ⟨.num 7, .abnormal_high, "Diabetes mellitus"⟩ :=
  ⟨(hba1c_tier_classification 5 "male").1 (by decide),
   (hba1c_tier_classification 6 "male").2.1 (by decide) (by decide),
   (hba1c_tier_classification 7 "male").2.2.1 (by decide)⟩

/-- Witness for `vitamin_tier_classification`: each guarded branch at a
concrete value. -/
theorem vitamin_tier_classification_witness :
    categorize_one "VITAMIN_D3" (.num 10) "male" =
      .ok ⟨.num 10, .abnormal_low, "Severe Vitamin D deficiency"⟩
    ∧ categorize_one "VITAMIN_D3" (.num 25) "male" =
        .ok ⟨.num 25, .borderline_low, "Vitamin D insufficiency"⟩
    ∧ categorize_one "VITAMIN_D3" (.num 50) "male" = .ok ⟨.num 50, .normal, ""⟩
    ∧ categorize_one "VITAMIN_D3" (.num 90) "male" =
        .ok ⟨.num 90, .abnormal_high, "Vitamin D excess - hypercalcemia risk"⟩
    ∧ categorize_one "VITAMIN_B12" (.num 100) "male" =
        .ok ⟨.num 100, .abnormal_low, "B12 deficiency - neurological issues possible"⟩
    ∧ categorize_one "VITAMIN_B12" (.num 500) "male" = .ok ⟨.num 500, .normal, ""⟩
    ∧ categorize_one "VITAMIN_B12" (.num 1000) "male" =
        .ok ⟨.num 1000, .abnormal_high, "Elevated B12 levels"⟩ :=
  ⟨(vitamin_tier_classification 10 0 "male").1 (by norm_num),
   (vitamin_tier_classification 25 0 "male").2.1 (by norm_num) (by norm_num),
   (vitamin_tier_classification 50 0 "male").2.2.1 (by norm_num) (by norm_num),
   (vitamin_tier_classification 90 0 "male").2.2.2.1 (by norm_num),
   (vitamin_tier_classification 0 100 "male").2.2.2.2.1 (by norm_num),
   (vitamin_tier_classification 0 500 "male").2.2.2.2.2.1 (by norm_num) (by norm_num),
   (vitamin_tier_classification 0 1000 "male").2.2.2.2.2.2 (by norm_num)⟩

/-! ### Sex-bounded classification: raising inputs and the unknown-sex
fallthrough -/

/-- C1: the table maps PSA's `female` key to `None`, so
`sex in ref_range` succeeds for a female patient and the tuple
unpacking `lower, upper = ref_range[sex]` raises `TypeError`:
classification of PSA value 5.0 with sex female is NOT total — it
raises instead of falling through to `not_numeric`/`no_reference`,
both for the single observation and through `categorize_results` with
an extracted sex of `Female`. -/
theorem psa_female_classification_raises :
    categorize_one "PSA" (.num 5) "female" =
      .error "TypeError: cannot unpack non-iterable NoneType"
    ∧ (categorize_results [("PSA", .num 5)] { sex := some "Female" }).isOk = false
    ∧ REFERENCE_RANGES "PSA" =
        some (.sexB ⟨some (0, 4), none, "ng/ml", "",
          "Elevated PSA - prostate abnormality possible, including cancer"⟩) := by
  refine ⟨by decide, by decide, rfl⟩

/-- C9 counterexample: the keys of a sex-bounded dict also include the
metadata keys, so a patient sex that lowercases to `unit` (neither
`male` nor `female`) passes the `sex in ref_range` test and
classification raises instead of returning `not_numeric`. -/
theorem metadata_sex_key_raises :
    ("unit" ≠ "male" ∧ "unit" ≠ "female")
    ∧ categorize_one "HAEMOGLOBIN" (.num 14) "unit" =
        .error "TypeError or ValueError: unpacking a metadata entry"
    ∧ (categorize_results [("HAEMOGLOBIN", .num 14)] { sex := some "Unit" }).isOk = false := by
  refine ⟨⟨by decide, by decide⟩, by decide, by decide⟩

/-- C9 (amended): for every sex-bounded test and numeric value, a sex
string that is none of the five dict keys (`male`, `female`, `unit`,
`low_concern`, `high_concern`) — e.g. `m` or `other` — classifies as
`not_numeric` with empty concern. -/
theorem unknown_sex_not_numeric_amended (test : String) (r : SexRange) (v : ℚ) (s : String)
    (htab : REFERENCE_RANGES test = some (.sexB r))
    (h1 : s ≠ "male") (h2 : s ≠ "female") (h3 : s ≠ "unit")
    (h4 : s ≠ "low_concern") (h5 : s ≠ "high_concern") :
    categorize_one test (.num v) s = .ok ⟨.num v, .not_numeric, ""⟩ := by
  unfold categorize_one
  rw [htab]
  simp [h1, h2, h3, h4, h5]

/-- Witness for `unknown_sex_not_numeric_amended` at the claim's
example sexes `m` and `other`. -/
theorem unknown_sex_not_numeric_amended_witness :
    categorize_one "HAEMOGLOBIN" (.num 14) "m" = .ok ⟨.num 14, .not_numeric, ""⟩
    ∧ categorize_one "PSA" (.num 5) "other" = .ok ⟨.num 5, .not_numeric, ""⟩ :=
  ⟨unknown_sex_not_numeric_amended "HAEMOGLOBIN"
      ⟨some (13, mkRat 165 10), some (12, mkRat 155 10), "gm%", "Anemia possible",
        "Polycythemia possible"⟩ 14 "m" rfl
      (by decide) (by decide) (by decide) (by decide) (by decide),
   unknown_sex_not_numeric_amended "PSA"
      ⟨some (0, 4), none, "ng/ml", "",
        "Elevated PSA - prostate abnormality possible, including cancer"⟩ 5 "other" rfl
      (by decide) (by decide) (by decide) (by decide) (by decide)⟩

/-! ### Default sex and the prostate block -/

/-- C2 counterexample: with no sex in the patient info and no override,
classification defaults to male (PSA 5.0 is `abnormal_high` by the male
bound), but `create_summary` defaults the prostate gate to the empty
string, so the prostate block does not fire: the summary holds only the
sentinel risk factor and no urology recommendation. -/
theorem missing_sex_prostate_counterexample :
    categorize_results [("PSA", .num 5)] {} =
      .ok [("PSA", ⟨.num 5, .abnormal_high,
        "Elevated PSA - prostate abnormality possible, including cancer"⟩)]
    ∧ (create_summary
        [("PSA", ⟨.num 5, .abnormal_high,
          "Elevated PSA - prostate abnormality possible, including cancer"⟩)] {}).risk_factors
        = ["No significant risk factors identified"]
    ∧ "Urologist consultation recommended" ∉
        (create_summary
          [("PSA", ⟨.num 5, .abnormal_high,
            "Elevated PSA - prostate abnormality possible, including cancer"⟩)]
          {}).recommendations := by
  refine ⟨by decide, by decide, by decide⟩

/-- C2 (amended): classification defaults a missing sex to male, but
the prostate block gates on `patient_info.get("sex", "").upper()`, so
with a missing sex it never fires; it fires — appending the elevated-PSA
risk factor and the urology recommendation — exactly when the stored sex
uppercases to `MALE` and PSA is `abnormal_high`. -/
theorem missing_sex_default_amended (tests : List (String × Value)) (m : CatMap)
    (info : PatientInfo) (s : String) :
    (info.sex = none →
      categorize_results tests info = categorize_results tests { info with sex := some "male" })
    ∧ (info.sex = none → prostate_block m info = ([], []))
    ∧ (info.sex = some s → pyUpper s = "MALE" → statusIs m "PSA" .abnormal_high = true →
        "Elevated PSA - prostate abnormality possible" ∈ (create_summary m info).risk_factors
        ∧ "Urologist consultation recommended" ∈ (create_summary m info).recommendations) := by
  refine ⟨?_, ?_, ?_⟩
  · intro h
    unfold categorize_results
    rw [h]
    exact rfl
  · intro h
    unfold prostate_block
    rw [h, if_neg (by decide : ¬ pyUpper ((none : Option String).getD "") = "MALE")]
  · intro hsex hupper hpsa
    have hp : prostate_block m info =
        (["Elevated PSA - prostate abnormality possible"],
         ["Urologist consultation recommended"]) := by
      unfold prostate_block
      rw [hsex, Option.getD_some, hupper, if_pos rfl, if_pos hpsa]
    constructor
    · exact mem_risk_factors m info _ (by simp [risk_factors_list, hp])
    · exact mem_recommendations m info _ (by simp [recommendations_list, hp])

/-- Witness for `missing_sex_default_amended` at a concrete sexless
info, a male info, and a PSA-abnormal map. -/
theorem missing_sex_default_amended_witness :
    categorize_results [("PSA", .num 5)] {} =
      categorize_results [("PSA", .num 5)] { sex := some "male" }
    ∧ prostate_block [] {} = ([], [])
    ∧ ("Elevated PSA - prostate abnormality possible" ∈
        (create_summary [("PSA", ⟨.num 5, .abnormal_high, "c"⟩)]
          { sex := some "Male" }).risk_factors
       ∧ "Urologist consultation recommended" ∈
          (create_summary [("PSA", ⟨.num 5, .abnormal_high, "c"⟩)]
            { sex := some "Male" }).recommendations) :=
  ⟨(missing_sex_default_amended [("PSA", .num 5)] [] {} "").1 rfl,
   (missing_sex_default_amended [] [] {} "").2.1 rfl,
   (missing_sex_default_amended [] [("PSA", ⟨.num 5, .abnormal_high, "c"⟩)]
      { sex := some "Male" } "Male").2.2 rfl (by decide) (by decide)⟩

/-! ### The anemia block -/

/-- C6 counterexample: with HAEMOGLOBIN `abnormal_low` but no MCV
observation at all, the anemia block appends nothing — the summary holds
only the sentinel, and none of the three anemia wordings — so
"whenever HAEMOGLOBIN is abnormal_low a risk factor is appended" fails. -/
theorem anemia_missing_mcv_counterexample :
    statusIs [("HAEMOGLOBIN", ⟨.num 11, .abnormal_low, "Anemia possible"⟩)]
        "HAEMOGLOBIN" .abnormal_low = true
    ∧ (create_summary [("HAEMOGLOBIN", ⟨.num 11, .abnormal_low, "Anemia possible"⟩)]
        {}).risk_factors = ["No significant risk factors identified"]
    ∧ "Normocytic anemia possible" ∉
        (create_summary [("HAEMOGLOBIN", ⟨.num 11, .abnormal_low, "Anemia possible"⟩)]
          {}).risk_factors
    ∧ "Microcytic anemia possible - consider iron deficiency" ∉
        (create_summary [("HAEMOGLOBIN", ⟨.num 11, .abnormal_low, "Anemia possible"⟩)]
          {}).risk_factors
    ∧ "Macrocytic anemia possible - consider B12/folate deficiency" ∉
        (create_summary [("HAEMOGLOBIN", ⟨.num 11, .abnormal_low, "Anemia possible"⟩)]
          {}).risk_factors := by
  refine ⟨by decide, by decide, by decide, by decide, by decide⟩

/-- C6 (amended): whenever HAEMOGLOBIN is `abnormal_low` AND an MCV
observation is present, the anemia block appends a risk factor branched
on the MCV status: `abnormal_low` gives the microcytic/iron wording plus
an iron-deficiency recommendation, `abnormal_high` gives the macrocytic
wording plus a B12/folate recommendation, anything else gives
"Normocytic anemia possible". -/
theorem anemia_branching_amended (m : CatMap) (info : PatientInfo) (e : CatEntry)
    (hH : statusIs m "HAEMOGLOBIN" .abnormal_low = true)
    (hMCV : lookup m "MCV" = some e) :
    (e.status = .abnormal_low →
      "Microcytic anemia possible - consider iron deficiency" ∈
        (create_summary m info).risk_factors
      ∧ "Further investigation for iron deficiency anemia recommended" ∈
          (create_summary m info).recommendations)
    ∧ (e.status = .abnormal_high →
        "Macrocytic anemia possible - consider B12/folate deficiency" ∈
          (create_summary m info).risk_factors
        ∧ "Further investigation for vitamin B12 or folate deficiency recommended" ∈
            (create_summary m info).recommendations)
    ∧ (e.status ≠ .abnormal_low → e.status ≠ .abnormal_high →
        "Normocytic anemia possible" ∈ (create_summary m info).risk_factors) := by
  refine ⟨?_, ?_, ?_⟩
  · intro hs
    have ha : anemia_block m =
        (["Microcytic anemia possible - consider iron deficiency"],
         ["Further investigation for iron deficiency anemia recommended"]) := by
      simp [anemia_block, hH, hMCV, hs]
    exact ⟨mem_risk_factors _ _ _ (by simp [risk_factors_list, ha]),
           mem_recommendations _ _ _ (by simp [recommendations_list, ha])⟩
  · intro hs
    have ha : anemia_block m =
        (["Macrocytic anemia possible - consider B12/folate deficiency"],
         ["Further investigation for vitamin B12 or folate deficiency recommended"]) := by
      simp [anemia_block, hH, hMCV, hs]
    exact ⟨mem_risk_factors _ _ _ (by simp [risk_factors_list, ha]),
           mem_recommendations _ _ _ (by simp [recommendations_list, ha])⟩
  · intro hs1 hs2
    have ha : anemia_block m = (["Normocytic anemia possible"], []) := by
      simp [anemia_block, hH, hMCV, hs1, hs2]
    exact mem_risk_factors _ _ _ (by simp [risk_factors_list, ha])

/-- Witness for `anemia_branching_amended`: the spec's end-to-end
scenario 1 — observations HAEMOGLOBIN 11.0 (male) and MCV 70 classify
`abnormal_low`/`abnormal_low`, and the microcytic risk factor and the
iron-deficiency recommendation are present. -/
theorem anemia_branching_amended_witness :
    categorize_results [("HAEMOGLOBIN", .num 11), ("MCV", .num 70)] { sex := some "Male" } =
      .ok [("HAEMOGLOBIN", ⟨.num 11, .abnormal_low, "Anemia possible"⟩),
           ("MCV", ⟨.num 70, .abnormal_low, "Microcytic anemia possible"⟩)]
    ∧ "Microcytic anemia possible - consider iron deficiency" ∈
        (create_summary
          [("HAEMOGLOBIN", ⟨.num 11, .abnormal_low, "Anemia possible"⟩),
           ("MCV", ⟨.num 70, .abnormal_low, "Microcytic anemia possible"⟩)]
          { sex := some "Male" }).risk_factors
    ∧ "Further investigation for iron deficiency anemia recommended" ∈
        (create_summary
          [("HAEMOGLOBIN", ⟨.num 11, .abnormal_low, "Anemia possible"⟩),
           ("MCV", ⟨.num 70, .abnormal_low, "Microcytic anemia possible"⟩)]
          { sex := some "Male" }).recommendations :=
  ⟨by decide,
   ((anemia_branching_amended
      [("HAEMOGLOBIN", ⟨.num 11, .abnormal_low, "Anemia possible"⟩),
       ("MCV", ⟨.num 70, .abnormal_low, "Microcytic anemia possible"⟩)]
      { sex := some "Male" } ⟨.num 70, .abnormal_low, "Microcytic anemia possible"⟩
      (by decide) (by decide)).1 rfl).1,
   ((anemia_branching_amended
      [("HAEMOGLOBIN", ⟨.num 11, .abnormal_low, "Anemia possible"⟩),
       ("MCV", ⟨.num 70, .abnormal_low, "Microcytic anemia possible"⟩)]
      { sex := some "Male" } ⟨.num 70, .abnormal_low, "Microcytic anemia possible"⟩
      (by decide) (by decide)).1 rfl).2⟩

/-! ### Normocytic-only summaries (empty recommendations) -/

/-- C10: when HAEMOGLOBIN is `abnormal_low`, MCV is present with a
status that is neither `abnormal_low` nor `abnormal_high`, and every
other block appends nothing, the summary is exactly
`risk_factors = ["Normocytic anemia possible"]` with empty
recommendations — the sentinel pair is not appended because
`risk_factors` is non-empty. -/
theorem normocytic_only_summary (m : CatMap) (info : PatientInfo) (e : CatEntry)
    (hH : statusIs m "HAEMOGLOBIN" .abnormal_low = true)
    (hMCV : lookup m "MCV" = some e)
    (hs1 : e.status ≠ .abnormal_low) (hs2 : e.status ≠ .abnormal_high)
    (hb2 : wbc_block m = ([], [])) (hb3 : lipid_block m = ([], []))
    (hb4 : diabetes_block m = ([], [])) (hb5 : prostate_block m info = ([], []))
    (hb6 : vitd_block m = ([], [])) (hb7 : vitb12_block m = ([], []))
    (hb8 : kidney_block m = ([], [])) (hb9 : liver_block m = ([], []))
    (hb10 : thyroid_block m = ([], [])) :
    (create_summary m info).risk_factors = ["Normocytic anemia possible"]
    ∧ (create_summary m info).recommendations = [] := by
  have ha : anemia_block m = (["Normocytic anemia possible"], []) := by
    simp [anemia_block, hH, hMCV, hs1, hs2]
  have hrf : risk_factors_list m info = ["Normocytic anemia possible"] := by
    simp [risk_factors_list, ha, hb2, hb3, hb4, hb5, hb6, hb7, hb8, hb9, hb10]
  have hrc : recommendations_list m info = [] := by
    simp [recommendations_list, ha, hb2, hb3, hb4, hb5, hb6, hb7, hb8, hb9, hb10]
  constructor
  · rw [create_summary_risk_factors, hrf]
    rfl
  · rw [create_summary_recommendations, hrf, hrc]
    rfl

/-- Witness for `normocytic_only_summary` at the concrete map
HAEMOGLOBIN `abnormal_low`, MCV `normal`. -/
theorem normocytic_only_summary_witness :
    (create_summary
      [("HAEMOGLOBIN", ⟨.num 11, .abnormal_low, "Anemia possible"⟩),
       ("MCV", ⟨.num 85, .normal, ""⟩)] {}).risk_factors = ["Normocytic anemia possible"]
    ∧ (create_summary
        [("HAEMOGLOBIN", ⟨.num 11, .abnormal_low, "Anemia possible"⟩),
         ("MCV", ⟨.num 85, .normal, ""⟩)] {}).recommendations = [] :=
  normocytic_only_summary
    [("HAEMOGLOBIN", ⟨.num 11, .abnormal_low, "Anemia possible"⟩),
     ("MCV", ⟨.num 85, .normal, ""⟩)] {} ⟨.num 85, .normal, ""⟩
    (by decide) (by decide) (by decide) (by decide)
    (by decide) (by decide) (by decide) (by decide)
    (by decide) (by decide) (by decide) (by decide) (by decide)

/-! ### Abnormal subset, sentinel behavior -/

lemma create_summary_abnormal_tests (m : CatMap) (info : PatientInfo) :
    (create_summary m info).abnormal_tests = m.filter isAbnBorder := rfl

lemma create_summary_abnormal_count (m : CatMap) (info : PatientInfo) :
    (create_summary m info).abnormal_count = (m.filter isAbnBorder).length := rfl

lemma statusIs_mem (m : CatMap) (k : String) (s : Status) (h : statusIs m k s = true) :
    ∃ kv, kv ∈ m ∧ kv.1 = k ∧ kv.2.status = s := by
  unfold statusIs lookup at h
  cases hf : m.find? (fun kv => kv.1 == k) with
  | none => rw [hf] at h; simp at h
  | some a =>
    rw [hf] at h
    have h2 : a.2.status = s := by simpa using h
    exact ⟨a, List.mem_of_find?_eq_some hf, by simpa using List.find?_some hf, h2⟩

lemma noAbn_statusIs_false (m : CatMap) (hno : ∀ kv ∈ m, isAbnBorder kv = false)
    (k : String) (s : Status)
    (hs : (strContains (statusStr s) "abnormal" || strContains (statusStr s) "borderline")
      = true) : statusIs m k s = false := by
  cases hc : statusIs m k s with
  | false => rfl
  | true =>
    obtain ⟨kv, hm, -, hst⟩ := statusIs_mem m k s hc
    have hkv := hno kv hm
    unfold isAbnBorder at hkv
    rw [hst, hs] at hkv
    exact absurd hkv (by simp)

lemma blocks_silent_of_noAbn (m : CatMap) (info : PatientInfo)
    (hno : ∀ kv ∈ m, isAbnBorder kv = false) :
    anemia_block m = ([], []) ∧ wbc_block m = ([], []) ∧ lipid_block m = ([], [])
    ∧ diabetes_block m = ([], []) ∧ prostate_block m info = ([], [])
    ∧ vitd_block m = ([], []) ∧ vitb12_block m = ([], []) ∧ kidney_block m = ([], [])
    ∧ liver_block m = ([], []) ∧ thyroid_block m = ([], []) := by
  have hf := noAbn_statusIs_false m hno
  refine ⟨?_, ?_, ?_, ?_, ?_, ?_, ?_, ?_, ?_, ?_⟩
  · simp [anemia_block, hf "HAEMOGLOBIN" .abnormal_low (by decide)]
  · simp [wbc_block, hf "WBC" .abnormal_high (by decide)]
  · simp [lipid_block, hf "CHOLESTEROL_TOTAL" .abnormal_high (by decide),
      hf "LDL" .abnormal_high (by decide), hf "LDL" .very_abnormal_high (by decide),
      hf "HDL" .abnormal_low (by decide), hf "TRIGLYCERIDES" .abnormal_high (by decide)]
  · simp [diabetes_block, hf "HBA1C" .borderline (by decide),
      hf "HBA1C" .abnormal_high (by decide)]
  · simp [prostate_block, hf "PSA" .abnormal_high (by decide)]
  · simp [vitd_block, hf "VITAMIN_D3" .abnormal_low (by decide),
      hf "VITAMIN_D3" .borderline_low (by decide)]
  · simp [vitb12_block, hf "VITAMIN_B12" .abnormal_low (by decide)]
  · simp [kidney_block, hf "CREATININE" .abnormal_high (by decide)]
  · simp [liver_block, hf "SGPT" .abnormal_high (by decide),
      hf "ALKALINE_PHOSPHATE" .abnormal_high (by decide)]
  · simp [thyroid_block, hf "TSH" .abnormal_high (by decide),
      hf "TSH" .abnormal_low (by decide)]

lemma sentinel_of_blocks_silent (m : CatMap) (info : PatientInfo)
    (hb1 : anemia_block m = ([], [])) (hb2 : wbc_block m = ([], []))
    (hb3 : lipid_block m = ([], [])) (hb4 : diabetes_block m = ([], []))
    (hb5 : prostate_block m info = ([], [])) (hb6 : vitd_block m = ([], []))
    (hb7 : vitb12_block m = ([], [])) (hb8 : kidney_block m = ([], []))
    (hb9 : liver_block m = ([], [])) (hb10 : thyroid_block m = ([], [])) :
    (create_summary m info).risk_factors = ["No significant risk factors identified"]
    ∧ (create_summary m info).recommendations =
        ["Routine follow-up as per age and gender appropriate guidelines"] := by
  have hrf : risk_factors_list m info = [] := by
    simp [risk_factors_list, hb1, hb2, hb3, hb4, hb5, hb6, hb7, hb8, hb9, hb10]
  have hrc : recommendations_list m info = [] := by
    simp [recommendations_list, hb1, hb2, hb3, hb4, hb5, hb6, hb7, hb8, hb9, hb10]
  constructor
  · rw [create_summary_risk_factors, hrf]
    rfl
  · rw [create_summary_recommendations, hrf, hrc]
    rfl

/-- C7: the abnormal subset is exactly the classified observations whose
status string contains `abnormal` or `borderline`, `abnormal_count` is
its size; when no block appends anything the summary is exactly the
sentinel risk factor and the routine-follow-up recommendation; and with
no abnormal/borderline observation at all, the risk factors are exactly
the sentinel and the abnormal count is zero. -/
theorem abnormal_subset_and_sentinel (m : CatMap) (info : PatientInfo) :
    (∀ kv : String × CatEntry,
      kv ∈ (create_summary m info).abnormal_tests ↔
        kv ∈ m ∧ (strContains (statusStr kv.2.status) "abnormal"
          || strContains (statusStr kv.2.status) "borderline") = true)
    ∧ (create_summary m info).abnormal_count = (create_summary m info).abnormal_tests.length
    ∧ (anemia_block m = ([], []) → wbc_block m = ([], []) → lipid_block m = ([], []) →
        diabetes_block m = ([], []) → prostate_block m info = ([], []) →
        vitd_block m = ([], []) → vitb12_block m = ([], []) → kidney_block m = ([], []) →
        liver_block m = ([], []) → thyroid_block m = ([], []) →
        (create_summary m info).risk_factors = ["No significant risk factors identified"]
        ∧ (create_summary m info).recommendations =
            ["Routine follow-up as per age and gender appropriate guidelines"])
    ∧ ((∀ kv ∈ m, isAbnBorder kv = false) →
        (create_summary m info).risk_factors = ["No significant risk factors identified"]
        ∧ (create_summary m info).abnormal_count = 0) := by
  refine ⟨?_, rfl, ?_, ?_⟩
  · intro kv
    rw [create_summary_abnormal_tests]
    simp [List.mem_filter, isAbnBorder]
  · exact sentinel_of_blocks_silent m info
  · intro hno
    obtain ⟨hb1, hb2, hb3, hb4, hb5, hb6, hb7, hb8, hb9, hb10⟩ :=
      blocks_silent_of_noAbn m info hno
    refine ⟨(sentinel_of_blocks_silent m info hb1 hb2 hb3 hb4 hb5 hb6 hb7 hb8 hb9 hb10).1, ?_⟩
    rw [create_summary_abnormal_count]
    have : m.filter isAbnBorder = [] :=
      List.filter_eq_nil_iff.mpr (fun a ha => by simp [hno a ha])
    rw [this]
    rfl

/-- Witness for `abnormal_subset_and_sentinel`: a concrete all-normal
map yields the sentinel pair and abnormal count zero. -/
theorem abnormal_subset_and_sentinel_witness :
    (("TSH", (⟨.num 2, .normal, ""⟩ : CatEntry)) ∈
      (create_summary [("TSH", ⟨.num 2, .normal, ""⟩)] {}).abnormal_tests ↔
        (("TSH", (⟨.num 2, .normal, ""⟩ : CatEntry)) ∈
            [("TSH", (⟨.num 2, .normal, ""⟩ : CatEntry))]
          ∧ (strContains (statusStr (⟨Value.num 2, .normal, ""⟩ : CatEntry).status) "abnormal"
              || strContains (statusStr (⟨Value.num 2, .normal, ""⟩ : CatEntry).status)
                  "borderline") = true))
    ∧ (create_summary [("TSH", ⟨.num 2, .normal, ""⟩)] {}).risk_factors =
        ["No significant risk factors identified"]
    ∧ (create_summary [("TSH", ⟨.num 2, .normal, ""⟩)] {}).recommendations =
        ["Routine follow-up as per age and gender appropriate guidelines"]
    ∧ (create_summary [("TSH", ⟨.num 2, .normal, ""⟩)] {}).abnormal_count = 0 :=
  ⟨(abnormal_subset_and_sentinel [("TSH", ⟨.num 2, .normal, ""⟩)] {}).1
      ("TSH", ⟨.num 2, .normal, ""⟩),
   ((abnormal_subset_and_sentinel [("TSH", ⟨.num 2, .normal, ""⟩)] {}).2.2.1
      (by decide) (by decide) (by decide) (by decide) (by decide)
      (by decide) (by decide) (by decide) (by decide) (by decide)).1,
   ((abnormal_subset_and_sentinel [("TSH", ⟨.num 2, .normal, ""⟩)] {}).2.2.1
      (by decide) (by decide) (by decide) (by decide) (by decide)
      (by decide) (by decide) (by decide) (by decide) (by decide)).2,
   ((abnormal_subset_and_sentinel [("TSH", ⟨.num 2, .normal, ""⟩)] {}).2.2.2
      (by decide)).2⟩

/-! ### Fixed block order, key-order independence, no deduplication -/

lemma lookup_eq_of_perm (m m2 : CatMap) (hp : m.Perm m2)
    (hn : (m.map Prod.fst).Nodup) (k : String) : lookup m k = lookup m2 k := by
  unfold lookup
  cases hf : m.find? (fun kv => kv.1 == k) with
  | none =>
    have h1 := List.find?_eq_none.mp hf
    have h2 : m2.find? (fun kv => kv.1 == k) = none :=
      List.find?_eq_none.mpr (fun x hx => h1 x (hp.mem_iff.mpr hx))
    rw [h2]
  | some a =>
    have hpa : (a.1 == k) = true := by simpa using List.find?_some hf
    have ham : a ∈ m := List.mem_of_find?_eq_some hf
    cases hf2 : m2.find? (fun kv => kv.1 == k) with
    | none =>
      exact absurd hpa (List.find?_eq_none.mp hf2 a (hp.mem_iff.mp ham))
    | some b =>
      have hpb : (b.1 == k) = true := by simpa using List.find?_some hf2
      have hbm : b ∈ m := hp.mem_iff.mpr (List.mem_of_find?_eq_some hf2)
      have hab : a = b := by
        refine List.inj_on_of_nodup_map hn ham hbm ?_
        rw [beq_iff_eq.mp hpa, beq_iff_eq.mp hpb]
      rw [hab]

lemma statusIs_congr (m m2 : CatMap) (h : ∀ k, lookup m k = lookup m2 k) (k : String)
    (s : Status) : statusIs m k s = statusIs m2 k s := by
  unfold statusIs
  rw [h k]

/-- C8: the risk-factor and recommendation lists depend on the
classified map only through dict lookups, so they are independent of
the input map's key order (any permutation with unique keys); the
diabetes block is a function of the HBA1C entry alone, so the lipid
block firing never alters it; and at a concrete input where both the
dyslipidemia and the diabetes blocks fire — with HBA1C listed before
LDL — the outputs keep the fixed block order (dyslipidemia first) and
the shared lifestyle recommendation appears twice, undeduplicated. -/
theorem fixed_order_independent_blocks (m m2 : CatMap) (info : PatientInfo) :
    ((m.map Prod.fst).Nodup → m.Perm m2 →
      (create_summary m info).risk_factors = (create_summary m2 info).risk_factors
      ∧ (create_summary m info).recommendations = (create_summary m2 info).recommendations
      ∧ (create_summary m info).abnormal_count = (create_summary m2 info).abnormal_count)
    ∧ (lookup m "HBA1C" = lookup m2 "HBA1C" → diabetes_block m = diabetes_block m2)
    ∧ (create_summary
        [("HBA1C", ⟨.num 6, .borderline, "Prediabetes"⟩),
         ("LDL", ⟨.num 180, .very_abnormal_high,
           "Elevated LDL - increased cardiovascular risk"⟩)] {}).risk_factors =
        ["Dyslipidemia - increased cardiovascular risk", "Prediabetes"]
    ∧ (create_summary
        [("HBA1C", ⟨.num 6, .borderline, "Prediabetes"⟩),
         ("LDL", ⟨.num 180, .very_abnormal_high,
           "Elevated LDL - increased cardiovascular risk"⟩)] {}).recommendations =
        ["Lifestyle modifications recommended; consider dietary changes and exercise",
         "Consider consultation with cardiologist for lipid management",
         "Lifestyle modifications recommended; consider dietary changes and exercise",
         "Follow-up HbA1c test in 3-6 months"] := by
  refine ⟨?_, ?_, by decide, by decide⟩
  · intro hn hp
    have hl : ∀ k, lookup m k = lookup m2 k := lookup_eq_of_perm m m2 hp hn
    have hst := statusIs_congr m m2 hl
    have h1 : anemia_block m = anemia_block m2 := by
      unfold anemia_block
      rw [hst "HAEMOGLOBIN" .abnormal_low, hl "MCV"]
    have h2 : wbc_block m = wbc_block m2 := by
      unfold wbc_block
      rw [hst "WBC" .abnormal_high]
    have h3 : lipid_block m = lipid_block m2 := by
      unfold lipid_block
      rw [hst "CHOLESTEROL_TOTAL" .abnormal_high, hst "LDL" .abnormal_high,
        hst "LDL" .very_abnormal_high, hst "HDL" .abnormal_low,
        hst "TRIGLYCERIDES" .abnormal_high]
    have h4 : diabetes_block m = diabetes_block m2 := by
      unfold diabetes_block
      rw [hst "HBA1C" .borderline, hst "HBA1C" .abnormal_high]
    have h5 : prostate_block m info = prostate_block m2 info := by
      unfold prostate_block
      rw [hst "PSA" .abnormal_high]
    have h6 : vitd_block m = vitd_block m2 := by
      unfold vitd_block
      rw [hst "VITAMIN_D3" .abnormal_low, hst "VITAMIN_D3" .borderline_low]
    have h7 : vitb12_block m = vitb12_block m2 := by
      unfold vitb12_block
      rw [hst "VITAMIN_B12" .abnormal_low]
    have h8 : kidney_block m = kidney_block m2 := by
      unfold kidney_block
      rw [hst "CREATININE" .abnormal_high]
    have h9 : liver_block m = liver_block m2 := by
      unfold liver_block
      rw [hst "SGPT" .abnormal_high, hst "ALKALINE_PHOSPHATE" .abnormal_high]
    have h10 : thyroid_block m = thyroid_block m2 := by
      unfold thyroid_block
      rw [hst "TSH" .abnormal_high, hst "TSH" .abnormal_low]
    have hrf : risk_factors_list m info = risk_factors_list m2 info := by
      unfold risk_factors_list
      rw [h1, h2, h3, h4, h5, h6, h7, h8, h9, h10]
    have hrc : recommendations_list m info = recommendations_list m2 info := by
      unfold recommendations_list
      rw [h1, h2, h3, h4, h5, h6, h7, h8, h9, h10]
    refine ⟨?_, ?_, ?_⟩
    · rw [create_summary_risk_factors, create_summary_risk_factors, hrf]
    · rw [create_summary_recommendations, create_summary_recommendations, hrf, hrc]
    · rw [create_summary_abnormal_count, create_summary_abnormal_count]
      exact (hp.filter isAbnBorder).length_eq
  · intro h
    unfold diabetes_block statusIs
    rw [h]

/-- Witness for `fixed_order_independent_blocks`: a two-entry map and
its reversal produce the same lists and count, and the diabetes block
is unchanged between them. -/
theorem fixed_order_independent_blocks_witness :
    ((create_summary
        [("WBC", ⟨.num 12000, .abnormal_high,
           "Leukocytosis - infection or inflammation possible"⟩),
         ("HBA1C", ⟨.num 6, .borderline, "Prediabetes"⟩)] {}).risk_factors =
      (create_summary
        [("HBA1C", ⟨.num 6, .borderline, "Prediabetes"⟩),
         ("WBC", ⟨.num 12000, .abnormal_high,
           "Leukocytosis - infection or inflammation possible"⟩)] {}).risk_factors
     ∧ (create_summary
        [("WBC", ⟨.num 12000, .abnormal_high,
           "Leukocytosis - infection or inflammation possible"⟩),
         ("HBA1C", ⟨.num 6, .borderline, "Prediabetes"⟩)] {}).recommendations =
      (create_summary
        [("HBA1C", ⟨.num 6, .borderline, "Prediabetes"⟩),
         ("WBC", ⟨.num 12000, .abnormal_high,
           "Leukocytosis - infection or inflammation possible"⟩)] {}).recommendations
     ∧ (create_summary
        [("WBC", ⟨.num 12000, .abnormal_high,
           "Leukocytosis - infection or inflammation possible"⟩),
         ("HBA1C", ⟨.num 6, .borderline, "Prediabetes"⟩)] {}).abnormal_count =
      (create_summary
        [("HBA1C", ⟨.num 6, .borderline, "Prediabetes"⟩),
         ("WBC", ⟨.num 12000, .abnormal_high,
           "Leukocytosis - infection or inflammation possible"⟩)] {}).abnormal_count)
    ∧ diabetes_block
        [("WBC", ⟨.num 12000, .abnormal_high,
           "Leukocytosis - infection or inflammation possible"⟩),
         ("HBA1C", ⟨.num 6, .borderline, "Prediabetes"⟩)] =
      diabetes_block
        [("HBA1C", ⟨.num 6, .borderline, "Prediabetes"⟩),
         ("WBC", ⟨.num 12000, .abnormal_high,
           "Leukocytosis - infection or inflammation possible"⟩)] :=
  ⟨(fixed_order_independent_blocks
      [("WBC", ⟨.num 12000, .abnormal_high,
         "Leukocytosis - infection or inflammation possible"⟩),
       ("HBA1C", ⟨.num 6, .borderline, "Prediabetes"⟩)]
      [("HBA1C", ⟨.num 6, .borderline, "Prediabetes"⟩),
       ("WBC", ⟨.num 12000, .abnormal_high,
         "Leukocytosis - infection or inflammation possible"⟩)] {}).1
      (by decide) (by decide),
   (fixed_order_independent_blocks
      [("WBC", ⟨.num 12000, .abnormal_high,
         "Leukocytosis - infection or inflammation possible"⟩),
       ("HBA1C", ⟨.num 6, .borderline, "Prediabetes"⟩)]
      [("HBA1C", ⟨.num 6, .borderline, "Prediabetes"⟩),
       ("WBC", ⟨.num 12000, .abnormal_high,
         "Leukocytosis - infection or inflammation possible"⟩)] {}).2.1
      (by decide)⟩

end MedReport
